import Mathlib

/-!
# Verification of the Bolke voice-shopping backend core

Shallow embedding of the core of `backend/audio_streaming.py` and
`backend/browser_agents.py`:

* the alternative-query generator `_generate_search_alternatives`,
* the retry-search orchestrator `_smart_search_with_retries`,
* the provider search adapter `search_platform` (its pure post-processing,
  with the external browser agent modelled as an oracle outcome),
* the multi-provider aggregator `search_and_compare` (with the two
  `asyncio.gather(..., return_exceptions=True)` task outcomes modelled as
  `Except` values),
* the duplex audio session duties `_send_audio` / `_receive_audio` and the
  surrounding `stream_audio` task group.

Python strings are modelled as Lean `String`; the Python string methods used
by the source (`str.lower`, `str.strip`, `str.split`, substring containment)
are re-implemented below on `String.data` so that proofs can reason by list
induction.  Prices (Python floats that the source only compares, takes `min`
of, subtracts and `abs`es) are modelled as exact rationals `ℚ`.
-/

/-! ## Python string primitives -/

/-- Python whitespace, as recognised by `str.strip()` / `str.split()`. -/
def pyIsSpace (c : Char) : Bool :=
  c = ' ' || c = '\t' || c = '\n' || c = '\r' || c = '\x0b' || c = '\x0c'

/-- ASCII lower-casing of one character (`str.lower` on the ASCII range that
the source's brand table and unit tokens live in). -/
def pyLowerChar (c : Char) : Char :=
  if c = 'A' then 'a' else if c = 'B' then 'b' else if c = 'C' then 'c'
  else if c = 'D' then 'd' else if c = 'E' then 'e' else if c = 'F' then 'f'
  else if c = 'G' then 'g' else if c = 'H' then 'h' else if c = 'I' then 'i'
  else if c = 'J' then 'j' else if c = 'K' then 'k' else if c = 'L' then 'l'
  else if c = 'M' then 'm' else if c = 'N' then 'n' else if c = 'O' then 'o'
  else if c = 'P' then 'p' else if c = 'Q' then 'q' else if c = 'R' then 'r'
  else if c = 'S' then 's' else if c = 'T' then 't' else if c = 'U' then 'u'
  else if c = 'V' then 'v' else if c = 'W' then 'w' else if c = 'X' then 'x'
  else if c = 'Y' then 'y' else if c = 'Z' then 'z' else c

/-- Python `s.lower()`. -/
def pyLower (s : String) : String := ⟨s.data.map pyLowerChar⟩

/-- Strip Python whitespace from both ends of a character list. -/
def stripList (l : List Char) : List Char :=
  ((l.dropWhile pyIsSpace).reverse.dropWhile pyIsSpace).reverse

/-- Python `s.strip()`. -/
def pyStrip (s : String) : String := ⟨stripList s.data⟩

/-- Helper for `pySplitWs`: accumulates the current word (reversed). -/
def pySplitAux : List Char → List Char → List String
  | [], acc => if acc.isEmpty then [] else [⟨acc.reverse⟩]
  | c :: cs, acc =>
    if pyIsSpace c then
      if acc.isEmpty then pySplitAux cs []
      else (⟨acc.reverse⟩ : String) :: pySplitAux cs []
    else pySplitAux cs (c :: acc)

/-- Python `s.split()` (split on whitespace runs, dropping empty pieces). -/
def pySplitWs (s : String) : List String := pySplitAux s.data []

/-- Does `sub` occur at the head of `l`? -/
def subLeading : List Char → List Char → Bool
  | [], _ => true
  | _ :: _, [] => false
  | a :: as, b :: bs => a = b && subLeading as bs

/-- Does `sub` occur anywhere in `l`?  (Python `sub in s`.) -/
def hasSubList : List Char → List Char → Bool
  | [], sub => sub.isEmpty
  | a :: rest, sub => subLeading sub (a :: rest) || hasSubList rest sub

/-- Python substring containment `sub in s`. -/
def strContains (s sub : String) : Bool := hasSubList s.data sub.data

/-- Lower-casing a character neither creates nor destroys whitespace. -/
theorem pyIsSpace_pyLowerChar (c : Char) :
    pyIsSpace (pyLowerChar c) = pyIsSpace c := by
  unfold pyLowerChar
  by_cases h1 : c = 'A'
  · subst h1; decide
  rw [if_neg h1]
  by_cases h2 : c = 'B'
  · subst h2; decide
  rw [if_neg h2]
  by_cases h3 : c = 'C'
  · subst h3; decide
  rw [if_neg h3]
  by_cases h4 : c = 'D'
  · subst h4; decide
  rw [if_neg h4]
  by_cases h5 : c = 'E'
  · subst h5; decide
  rw [if_neg h5]
  by_cases h6 : c = 'F'
  · subst h6; decide
  rw [if_neg h6]
  by_cases h7 : c = 'G'
  · subst h7; decide
  rw [if_neg h7]
  by_cases h8 : c = 'H'
  · subst h8; decide
  rw [if_neg h8]
  by_cases h9 : c = 'I'
  · subst h9; decide
  rw [if_neg h9]
  by_cases h10 : c = 'J'
  · subst h10; decide
  rw [if_neg h10]
  by_cases h11 : c = 'K'
  · subst h11; decide
  rw [if_neg h11]
  by_cases h12 : c = 'L'
  · subst h12; decide
  rw [if_neg h12]
  by_cases h13 : c = 'M'
  · subst h13; decide
  rw [if_neg h13]
  by_cases h14 : c = 'N'
  · subst h14; decide
  rw [if_neg h14]
  by_cases h15 : c = 'O'
  · subst h15; decide
  rw [if_neg h15]
  by_cases h16 : c = 'P'
  · subst h16; decide
  rw [if_neg h16]
  by_cases h17 : c = 'Q'
  · subst h17; decide
  rw [if_neg h17]
  by_cases h18 : c = 'R'
  · subst h18; decide
  rw [if_neg h18]
  by_cases h19 : c = 'S'
  · subst h19; decide
  rw [if_neg h19]
  by_cases h20 : c = 'T'
  · subst h20; decide
  rw [if_neg h20]
  by_cases h21 : c = 'U'
  · subst h21; decide
  rw [if_neg h21]
  by_cases h22 : c = 'V'
  · subst h22; decide
  rw [if_neg h22]
  by_cases h23 : c = 'W'
  · subst h23; decide
  rw [if_neg h23]
  by_cases h24 : c = 'X'
  · subst h24; decide
  rw [if_neg h24]
  by_cases h25 : c = 'Y'
  · subst h25; decide
  rw [if_neg h25]
  by_cases h26 : c = 'Z'
  · subst h26; decide
  rw [if_neg h26]

/-- Stripping commutes with lower-casing on character lists. -/
theorem stripList_map_pyLowerChar (l : List Char) :
    stripList (l.map pyLowerChar) = (stripList l).map pyLowerChar := by
  have hp : (fun c => pyIsSpace (pyLowerChar c)) = pyIsSpace := by
    funext c; exact pyIsSpace_pyLowerChar c
  have hp' : pyIsSpace ∘ pyLowerChar = pyIsSpace := hp
  unfold stripList
  simp only [List.dropWhile_map, hp', ← List.map_reverse]

theorem pyStrip_pyLower_eq_empty_iff (s : String) :
    pyStrip (pyLower s) = "" ↔ pyStrip s = "" := by
  have hmk : ∀ l : List Char, (⟨l⟩ : String) = "" ↔ l = [] := by
    intro l
    constructor
    · intro h; exact congrArg String.data h
    · intro h; rw [h]
  unfold pyStrip pyLower
  simp only [hmk, stripList_map_pyLowerChar, List.map_eq_nil_iff]

/-! ## Alternative-query generator (`_generate_search_alternatives`)

Source: `backend/audio_streaming.py`, lines 207–259. -/

/-- The static brand → generic-terms table (`product_mappings`), in the
source's (insertion-ordered Python dict) order. -/
def product_mappings : List (String × List String) :=
  [("maggi", ["instant noodles", "noodles", "maggi noodles", "masala noodles"]),
   ("lays", ["chips", "potato chips", "lays chips"]),
   ("kurkure", ["namkeen", "snacks", "kurkure namkeen"]),
   ("parle g", ["biscuits", "parle biscuits", "glucose biscuits"]),
   ("oreo", ["biscuits", "cream biscuits", "oreo biscuits"]),
   ("bread", ["bread", "sandwich bread", "white bread"]),
   ("doodh", ["milk", "doodh", "toned milk"]),
   ("chai", ["tea", "chai", "tea leaves"]),
   ("atta", ["wheat flour", "atta", "flour"]),
   ("chawal", ["rice", "chawal", "basmati rice"])]

/-- The `for brand, generic_terms in product_mappings.items()` scan: the
generic terms of the first brand contained in `queryLower`, `[]` if none
(first match wins, then `break`). -/
def firstBrandTerms : List (String × List String) → String → List String
  | [], _ => []
  | (brand, terms) :: rest, queryLower =>
    if strContains queryLower brand then terms
    else firstBrandTerms rest queryLower

/-- The unit tokens scanned by the quantity-variant step. -/
def unitTokens : List String := ["pack", "kg", "gm", "ltr", "ml"]

/-- The key under which the dedup pass compares entries:
`alt.lower().strip()`. -/
def dedupKey (s : String) : String := pyStrip (pyLower s)

/-- The source's order-preserving dedup loop: keep `a` iff its key is not in
`seen` and non-empty; keys of kept entries are added to `seen`. -/
def dedupKeepFirst (seen : List String) : List String → List String
  | [] => []
  | a :: rest =>
    let k := dedupKey a
    if k ∉ seen ∧ k ≠ "" then a :: dedupKeepFirst (k :: seen) rest
    else dedupKeepFirst seen rest

/-- `_generate_search_alternatives(query)`: seed with the original query,
append generic terms for the first matching brand, append first/last word for
multi-word queries, append quantity variants when no unit token occurs,
dedup by lower-cased/stripped key keeping first occurrences, truncate to 5. -/
def generate_search_alternatives (query : String) : List String :=
  let queryLower := pyStrip (pyLower query)
  let brandTerms := firstBrandTerms product_mappings queryLower
  let words := pySplitWs query
  let wordTerms :=
    if words.length > 1 then [words.headD "", words.getLastD ""] else []
  let quantTerms :=
    if unitTokens.any (fun t => strContains queryLower t) then []
    else [query ++ " 1kg", query ++ " 500g"]
  (dedupKeepFirst [] (query :: (brandTerms ++ wordTerms ++ quantTerms))).take 5

/-! ## Properties of the dedup pass -/

/-- Keys of entries kept by the dedup pass avoid the `seen` set. -/
theorem dedupKeepFirst_key_not_mem :
    ∀ (l seen : List String) (x : String),
      x ∈ dedupKeepFirst seen l → dedupKey x ∉ seen := by
  intro l
  induction l with
  | nil => intro seen x hx; simp [dedupKeepFirst] at hx
  | cons a rest ih =>
    intro seen x hx
    unfold dedupKeepFirst at hx
    by_cases hc : dedupKey a ∉ seen ∧ dedupKey a ≠ ""
    · rw [if_pos hc] at hx
      rcases List.mem_cons.1 hx with rfl | hx'
      · exact hc.1
      · have := ih _ _ hx'
        exact fun hmem => this (List.mem_cons_of_mem _ hmem)
    · rw [if_neg hc] at hx
      exact ih _ _ hx

/-- The dedup pass yields a list whose lower-cased/stripped keys are pairwise
distinct. -/
theorem dedupKeepFirst_pairwise :
    ∀ (l seen : List String),
      (dedupKeepFirst seen l).Pairwise (fun a b => dedupKey a ≠ dedupKey b) := by
  intro l
  induction l with
  | nil => intro seen; simp [dedupKeepFirst]
  | cons a rest ih =>
    intro seen
    unfold dedupKeepFirst
    by_cases hc : dedupKey a ∉ seen ∧ dedupKey a ≠ ""
    · rw [if_pos hc]
      refine List.Pairwise.cons ?_ (ih _)
      intro b hb hab
      have := dedupKeepFirst_key_not_mem _ _ _ hb
      exact this (by simp [hab])
    · rw [if_neg hc]
      exact ih _

/-- A seed entry with a usable key survives the dedup pass in head position. -/
theorem dedupKeepFirst_head (q : String) (rest : List String)
    (hk : dedupKey q ≠ "") :
    dedupKeepFirst [] (q :: rest) = q :: dedupKeepFirst [dedupKey q] rest := by
  simp only [dedupKeepFirst]
  rw [if_pos ⟨List.not_mem_nil _, hk⟩]

/-- Packaged first-element/length/distinctness facts about the generator's
final `dedup → take 5` stage. -/
theorem dedup_take_spec (q : String) (T : List String) (hk : dedupKey q ≠ "") :
    ((dedupKeepFirst [] (q :: T)).take 5).head? = some q ∧
    ((dedupKeepFirst [] (q :: T)).take 5).length ≤ 5 ∧
    ((dedupKeepFirst [] (q :: T)).take 5).Pairwise
      (fun a b => dedupKey a ≠ dedupKey b) := by
  refine ⟨?_, List.length_take_le _ _, ?_⟩
  · rw [dedupKeepFirst_head _ _ hk]; rfl
  · exact (dedupKeepFirst_pairwise _ _).sublist (List.take_sublist _ _)

/-- C2 (counterexample): at the query `" milk"` (non-empty once stripped), the
generator's first element is the query as given, not its stripped form, so
the claim "first element equals the trimmed original query" fails. -/
theorem C2_counterexample :
    (generate_search_alternatives " milk").head? ≠ some (pyStrip " milk") := by
  decide

/-- C2 (amended): for every query whose stripped form is non-empty, the
generator's first element is the original query exactly as given (the source
never strips it), the list has at most 5 entries, and entries are pairwise
distinct after lower-casing and stripping. -/
theorem C2_generate_alternatives (query : String) (h : pyStrip query ≠ "") :
    (generate_search_alternatives query).head? = some query ∧
    (generate_search_alternatives query).length ≤ 5 ∧
    (generate_search_alternatives query).Pairwise
      (fun a b => dedupKey a ≠ dedupKey b) := by
  have hk : dedupKey query ≠ "" := fun hk =>
    h ((pyStrip_pyLower_eq_empty_iff query).1 hk)
  exact dedup_take_spec query _ hk

/-- Witness for C2: the amended statement applied at `" milk"`. -/
theorem C2_generate_alternatives_witness :
    (generate_search_alternatives " milk").head? = some " milk" ∧
    (generate_search_alternatives " milk").length ≤ 5 ∧
    (generate_search_alternatives " milk").Pairwise
      (fun a b => dedupKey a ≠ dedupKey b) :=
  C2_generate_alternatives " milk" (by decide)

/-! ## Products and the provider search adapter's value types

Source: `backend/browser_agents.py`, `ScrapedProduct` / `PlatformSearchResults`
(pydantic models).  Prices are modelled as exact rationals. -/

structure ScrapedProduct where
  name : String
  price : ℚ
  brand : String
  weight : String
  image_url : String
deriving DecidableEq

structure PlatformSearchResults where
  products : List ScrapedProduct
  platform : String
deriving DecidableEq

/-! ## Retry-search orchestrator (`_smart_search_with_retries`)

Source: `backend/audio_streaming.py`, lines 169–205.  The adapter call
`await self.agent_manager.search_platform(...)` is modelled as a function
`adapter : String → Except String PlatformSearchResults`; `.error` is an
exception raised by the attempt (caught by the loop's `except` and skipped),
`.ok` a normal return. -/

/-- The `for attempt, search_term in enumerate(alternatives, 1)` loop. -/
def smart_search_attempts
    (adapter : String → Except String PlatformSearchResults) (query : String) :
    List String → List ScrapedProduct × String
  | [] => ([], query)
  | t :: ts =>
    match adapter t with
    | .error _ => smart_search_attempts adapter query ts
    | .ok r =>
      if r.products.isEmpty then smart_search_attempts adapter query ts
      else (r.products, t)

/-- `_smart_search_with_retries(query)`: run the attempt loop over the
generated alternatives; on exhaustion return `([], query)`. -/
def smart_search_with_retries
    (adapter : String → Except String PlatformSearchResults)
    (query : String) : List ScrapedProduct × String :=
  smart_search_attempts adapter query (generate_search_alternatives query)

/-- An attempt that does not stop the loop: the adapter call raised, or it
returned an empty product list. -/
def attemptFails
    (adapter : String → Except String PlatformSearchResults)
    (t : String) : Prop :=
  (∃ e, adapter t = .error e) ∨ (∃ r, adapter t = .ok r ∧ r.products = [])

/-- The attempt loop stops at the first alternative whose adapter call
returns a non-empty list, skipping raising and empty attempts. -/
theorem smart_search_attempts_first_hit
    (adapter : String → Except String PlatformSearchResults) (query : String) :
    ∀ (pre : List String) (t : String) (post : List String)
      (r : PlatformSearchResults),
      (∀ u ∈ pre, attemptFails adapter u) →
      adapter t = .ok r → r.products ≠ [] →
      smart_search_attempts adapter query (pre ++ t :: post) =
        (r.products, t) := by
  intro pre
  induction pre with
  | nil =>
    intro t post r _ hok hne
    simp only [List.nil_append, smart_search_attempts, hok]
    rw [if_neg (by simpa [List.isEmpty_iff] using hne)]
  | cons u pre' ih =>
    intro t post r hfails hok hne
    have hu := hfails u (List.mem_cons_self u pre')
    have hrest : ∀ v ∈ pre', attemptFails adapter v := fun v hv =>
      hfails v (List.mem_cons_of_mem _ hv)
    rcases hu with ⟨e, he⟩ | ⟨r', hr', hempty⟩
    · simp only [List.cons_append, smart_search_attempts, he]
      exact ih t post r hrest hok hne
    · simp only [List.cons_append, smart_search_attempts, hr']
      rw [if_pos (by simp [List.isEmpty_iff, hempty])]
      exact ih t post r hrest hok hne

/-- If every attempt fails, the loop falls through. -/
theorem smart_search_attempts_exhausted
    (adapter : String → Except String PlatformSearchResults) (query : String) :
    ∀ l : List String, (∀ u ∈ l, attemptFails adapter u) →
      smart_search_attempts adapter query l = ([], query) := by
  intro l
  induction l with
  | nil => intro _; rfl
  | cons u rest ih =>
    intro hfails
    have hu := hfails u (List.mem_cons_self u rest)
    have hrest : ∀ v ∈ rest, attemptFails adapter v := fun v hv =>
      hfails v (List.mem_cons_of_mem _ hv)
    rcases hu with ⟨e, he⟩ | ⟨r', hr', hempty⟩
    · simp only [smart_search_attempts, he]
      exact ih hrest
    · simp only [smart_search_attempts, hr']
      rw [if_pos (by simp [List.isEmpty_iff, hempty])]
      exact ih hrest

/-- C3: `_smart_search_with_retries` iterates the generated alternatives in
order and returns `(products, thatAlternative)` for the first alternative
whose adapter call returns a non-empty product list; raising or empty
attempts are skipped; if every alternative raises or comes back empty the
result is `([], originalQuery)`.  In particular, when alternatives `1..k-1`
fail and alternative `k` succeeds, the result equals the direct adapter
result of alternative `k`. -/
theorem C3_smart_search_with_retries
    (adapter : String → Except String PlatformSearchResults) (query : String) :
    (∀ (pre : List String) (t : String) (post : List String)
       (r : PlatformSearchResults),
       generate_search_alternatives query = pre ++ t :: post →
       (∀ u ∈ pre, attemptFails adapter u) →
       adapter t = .ok r → r.products ≠ [] →
       smart_search_with_retries adapter query = (r.products, t)) ∧
    ((∀ u ∈ generate_search_alternatives query, attemptFails adapter u) →
       smart_search_with_retries adapter query = ([], query)) := by
  constructor
  · intro pre t post r halts hfails hok hne
    unfold smart_search_with_retries
    rw [halts]
    exact smart_search_attempts_first_hit adapter query pre t post r hfails hok hne
  · intro hall
    unfold smart_search_with_retries
    exact smart_search_attempts_exhausted adapter query _ hall

/-- A concrete product used by the witnesses below. -/
def maggiPack : ScrapedProduct :=
  { name := "Maggi Masala Noodles 70 g", price := 14, brand := "Maggi",
    weight := "70 g", image_url := "" }

/-- A concrete adapter: raises on `"maggi"`, succeeds on
`"instant noodles"`, comes back empty otherwise. -/
def retryDemoAdapter : String → Except String PlatformSearchResults :=
  fun t =>
    if t = "maggi" then .error "browser crashed"
    else if t = "instant noodles" then .ok ⟨[maggiPack], "blinkit"⟩
    else .ok ⟨[], "blinkit"⟩

/-- Witness for C3: alternative 1 raises, alternative 2 succeeds, and the
orchestrator returns alternative 2's products and search term. -/
theorem C3_smart_search_with_retries_witness :
    smart_search_with_retries retryDemoAdapter "maggi" =
      ([maggiPack], "instant noodles") := by
  refine (C3_smart_search_with_retries retryDemoAdapter "maggi").1
    ["maggi"] "instant noodles" ["noodles", "maggi noodles", "masala noodles"]
    ⟨[maggiPack], "blinkit"⟩ (by decide) ?_ rfl (by decide)
  intro u hu
  have hu' : u = "maggi" := List.mem_singleton.1 hu
  subst hu'
  exact Or.inl ⟨"browser crashed", rfl⟩

/-! ## Provider search adapter (`search_platform`)

Source: `backend/browser_agents.py`, lines 203–314.  The external effects
(Chrome launch, `agent.run()`, structured-output extraction) are modelled as
an `AgentOutcome` oracle; everything from `if result and result.structured_output`
down is translated directly.  The `try/except Exception` around the body maps
the `raised` outcome to an empty result; the `finally` teardown has no effect
on the returned value. -/

/-- One run of the browser agent, as seen by `search_platform`'s own code. -/
inductive AgentOutcome where
  | structured (output : PlatformSearchResults)
  | noStructuredOutput
  | raised (msg : String)

/-- The adapter's validity filter: drop `p.price <= 0`, then drop
`not p.name or len(p.name) < 3`. -/
def keepProduct (p : ScrapedProduct) : Bool :=
  !(p.price ≤ 0) && !(p.name = "" || p.name.length < 3)

/-- `search_platform(query, platform, max_results)`: tag the platform,
filter invalid products; no structured output or any exception yields an
empty tagged result. -/
def search_platform (outcome : AgentOutcome) (platform : String) :
    PlatformSearchResults :=
  match outcome with
  | .structured output =>
    { products := output.products.filter keepProduct, platform := platform }
  | .noStructuredOutput => { products := [], platform := platform }
  | .raised _ => { products := [], platform := platform }

theorem keepProduct_iff (p : ScrapedProduct) :
    keepProduct p = true ↔ 0 < p.price ∧ 3 ≤ p.name.length := by
  unfold keepProduct
  simp only [Bool.and_eq_true, Bool.not_eq_true', decide_eq_false_iff_not,
    not_le, Bool.or_eq_false_iff, decide_eq_false_iff_not, not_lt]
  constructor
  · rintro ⟨h1, _, h3⟩; exact ⟨h1, h3⟩
  · rintro ⟨h1, h3⟩
    refine ⟨h1, ?_, h3⟩
    intro hname
    rw [hname] at h3
    simp at h3

/-- Products surviving any `smart_search_attempts` run satisfy `P` whenever
every adapter success only carries products satisfying `P`. -/
theorem smart_search_attempts_preserves
    (adapter : String → Except String PlatformSearchResults) (query : String)
    (P : ScrapedProduct → Prop)
    (hAd : ∀ t r, adapter t = .ok r → ∀ p ∈ r.products, P p) :
    ∀ l, ∀ p ∈ (smart_search_attempts adapter query l).1, P p := by
  intro l
  induction l with
  | nil => intro p hp; simp [smart_search_attempts] at hp
  | cons t ts ih =>
    intro p hp
    cases hA : adapter t with
    | error e =>
      rw [smart_search_attempts, hA] at hp
      exact ih p hp
    | ok r =>
      simp only [smart_search_attempts, hA] at hp
      by_cases hE : r.products.isEmpty
      · rw [if_pos hE] at hp
        exact ih p hp
      · rw [if_neg hE] at hp
        exact hAd t r hA p hp

/-- C6: every product surfaced by the adapter has price strictly greater
than 0 and a name of at least 3 characters; products failing the predicate
are dropped at the adapter boundary; and products reaching the retry
orchestrator through the adapter satisfy the predicate as well. -/
theorem C6_adapter_validity (outcome : AgentOutcome) (platform : String)
    (oracle : String → AgentOutcome) (query : String) :
    (∀ p ∈ (search_platform outcome platform).products,
        0 < p.price ∧ 3 ≤ p.name.length) ∧
    (∀ output, outcome = .structured output →
      ∀ p ∈ output.products, ¬(0 < p.price ∧ 3 ≤ p.name.length) →
        p ∉ (search_platform outcome platform).products) ∧
    (∀ p ∈ (smart_search_with_retries
        (fun t => .ok (search_platform (oracle t) "blinkit")) query).1,
        0 < p.price ∧ 3 ≤ p.name.length) := by
  have hplat : ∀ (o : AgentOutcome) (plat : String),
      ∀ p ∈ (search_platform o plat).products, 0 < p.price ∧ 3 ≤ p.name.length := by
    intro o plat p hp
    cases o with
    | structured output =>
      simp only [search_platform] at hp
      exact (keepProduct_iff p).1 (List.of_mem_filter hp)
    | noStructuredOutput => simp [search_platform] at hp
    | raised msg => simp [search_platform] at hp
  refine ⟨hplat outcome platform, ?_, ?_⟩
  · intro output houtcome p _ hinvalid hmem
    exact hinvalid (hplat outcome platform p hmem)
  · exact smart_search_attempts_preserves _ query _
      (fun t r hr p hp => by
        cases hr
        exact hplat (oracle t) "blinkit" p hp) _

/-- An invalid product (price 0) used by the C6 witness. -/
def zeroPriceProduct : ScrapedProduct :=
  { name := "Ghost item", price := 0, brand := "", weight := "", image_url := "" }

/-- A concrete agent outcome mixing a valid and an invalid product. -/
def demoOutcome : AgentOutcome :=
  .structured ⟨[zeroPriceProduct, maggiPack], "blinkit"⟩

/-- Witness for C6: on a concrete agent outcome the surviving product is
valid and the invalid one was dropped. -/
theorem C6_adapter_validity_witness :
    (0 < maggiPack.price ∧ 3 ≤ maggiPack.name.length) ∧
    zeroPriceProduct ∉ (search_platform demoOutcome "blinkit").products :=
  ⟨(C6_adapter_validity demoOutcome "blinkit" (fun _ => demoOutcome) "maggi").1
      maggiPack (by decide),
   (C6_adapter_validity demoOutcome "blinkit" (fun _ => demoOutcome) "maggi").2.1
      ⟨[zeroPriceProduct, maggiPack], "blinkit"⟩ rfl zeroPriceProduct (by decide)
      (by decide)⟩

/-! ## Multi-provider aggregator (`search_and_compare`)

Source: `backend/browser_agents.py`, lines 316–403.  The two
`asyncio.gather(zepto_task, blinkit_task, return_exceptions=True)` outcomes
are modelled as `Except String PlatformSearchResults`: `.ok` corresponds to
the `isinstance(..., PlatformSearchResults)` branch, `.error` to a captured
exception (the task's raise).  The textual `summary` built by
`_build_comparison_summary` is presentation-only (float formatting) and is
not part of the model; every other field of the Python `ComparisonResult`
dataclass is. -/

/-- `min((p["price"] for p in products), default=0)`. -/
def minPriceD (l : List ScrapedProduct) : ℚ :=
  match l with
  | [] => 0
  | p :: ps => ps.foldl (fun a q => min a q.price) p.price

/-- Python `min(xs, key=f)` (first minimum wins ties), `none` on `[]`. -/
def pyMinBy {α : Type} (f : α → ℚ) : List α → Option α
  | [] => none
  | x :: xs => some (xs.foldl (fun a b => if f b < f a then b else a) x)

structure ComparisonResult where
  zepto_results : List ScrapedProduct
  blinkit_results : List ScrapedProduct
  cheapest_provider : String
  cheapest_product : Option (ScrapedProduct × String)
  price_difference : ℚ
deriving DecidableEq

/-- `search_and_compare(query, max_results)` after both gathered task
outcomes are in: degrade failures to empty lists, tag products with their
provider, take the global cheapest, compute per-provider minima (default 0),
absolute price difference, and the winner by the source's `if/elif` chain. -/
def search_and_compare (query : String)
    (zeptoOutcome blinkitOutcome : Except String PlatformSearchResults) :
    ComparisonResult :=
  let zepto_products := match zeptoOutcome with
    | .ok r => r.products
    | .error _ => []
  let blinkit_products := match blinkitOutcome with
    | .ok r => r.products
    | .error _ => []
  let all_products := zepto_products.map (fun p => (p, "zepto"))
      ++ blinkit_products.map (fun p => (p, "blinkit"))
  let cheapest := pyMinBy (fun x => x.1.price) all_products
  let zepto_min := minPriceD zepto_products
  let blinkit_min := minPriceD blinkit_products
  let price_diff := |zepto_min - blinkit_min|
  let cheaper :=
    if 0 < zepto_min ∧ 0 < blinkit_min then
      if zepto_min ≤ blinkit_min then "zepto" else "blinkit"
    else if 0 < zepto_min then "zepto"
    else if 0 < blinkit_min then "blinkit"
    else "unknown"
  { zepto_results := zepto_products, blinkit_results := blinkit_products,
    cheapest_provider := cheaper, cheapest_product := cheapest,
    price_difference := price_diff }

theorem foldl_min_le_init (ps : List ScrapedProduct) (x : ℚ) :
    ps.foldl (fun a q => min a q.price) x ≤ x := by
  induction ps generalizing x with
  | nil => exact le_refl x
  | cons q qs ih =>
    calc qs.foldl (fun a q => min a q.price) (min x q.price)
        ≤ min x q.price := ih (min x q.price)
      _ ≤ x := min_le_left _ _

theorem foldl_min_le_mem (ps : List ScrapedProduct) (x : ℚ) :
    ∀ p ∈ ps, ps.foldl (fun a q => min a q.price) x ≤ p.price := by
  induction ps generalizing x with
  | nil => intro p hp; simp at hp
  | cons q qs ih =>
    intro p hp
    rcases List.mem_cons.1 hp with rfl | hp'
    · calc qs.foldl (fun a q => min a q.price) (min x p.price)
          ≤ min x p.price := foldl_min_le_init qs _
        _ ≤ p.price := min_le_right _ _
    · exact ih (min x q.price) p hp'

theorem foldl_min_mem (ps : List ScrapedProduct) (x : ℚ) :
    ps.foldl (fun a q => min a q.price) x = x ∨
    ps.foldl (fun a q => min a q.price) x ∈ ps.map (·.price) := by
  induction ps generalizing x with
  | nil => exact Or.inl rfl
  | cons q qs ih =>
    rcases ih (min x q.price) with h | h
    · rw [List.foldl_cons, h]
      rcases min_cases x q.price with ⟨hmin, _⟩ | ⟨hmin, _⟩
      · exact Or.inl hmin
      · exact Or.inr (by simp [hmin])
    · exact Or.inr (List.mem_cons_of_mem _ h)

/-- `minPriceD` is 0 on the empty list and otherwise an attained lower bound
of the prices. -/
theorem minPriceD_spec (l : List ScrapedProduct) :
    (l = [] ∧ minPriceD l = 0) ∨
    (minPriceD l ∈ l.map (·.price) ∧ ∀ p ∈ l, minPriceD l ≤ p.price) := by
  cases l with
  | nil => exact Or.inl ⟨rfl, rfl⟩
  | cons p ps =>
    refine Or.inr ⟨?_, ?_⟩
    · rcases foldl_min_mem ps p.price with h | h
      · simp [minPriceD, h]
      · exact List.mem_cons_of_mem _ (by simpa [minPriceD] using h)
    · intro q hq
      rcases List.mem_cons.1 hq with rfl | hq'
      · exact foldl_min_le_init ps q.price
      · exact foldl_min_le_mem ps p.price q hq'

/-- Over positive-priced products, a non-empty list has positive minimum. -/
theorem minPriceD_pos (l : List ScrapedProduct)
    (hpos : ∀ p ∈ l, 0 < p.price) (hne : l ≠ []) : 0 < minPriceD l := by
  rcases minPriceD_spec l with ⟨rfl, _⟩ | ⟨hmem, _⟩
  · exact absurd rfl hne
  · rcases List.mem_map.1 hmem with ⟨p, hp, hval⟩
    rw [← hval]
    exact hpos p hp

/-- C4: in every ComparisonResult built by the aggregator (over validated,
hence positively-priced, product lists), the price difference is the
absolute difference of the two per-provider minima (a provider's minimum
being 0 when its list is empty); the winner is the provider with the lower
non-zero minimum (ties to zepto, the sole non-empty provider when only one
has products); and with both lists empty the winner is "unknown", the
difference 0 and the cheapest product absent. -/
theorem C4_comparison_result (query : String) (zs bs : List ScrapedProduct)
    (hz : ∀ p ∈ zs, 0 < p.price) (hb : ∀ p ∈ bs, 0 < p.price) :
    ∃ mz mb : ℚ,
      ((zs = [] ∧ mz = 0) ∨ (mz ∈ zs.map (·.price) ∧ ∀ p ∈ zs, mz ≤ p.price)) ∧
      ((bs = [] ∧ mb = 0) ∨ (mb ∈ bs.map (·.price) ∧ ∀ p ∈ bs, mb ≤ p.price)) ∧
      (search_and_compare query (.ok ⟨zs, "zepto"⟩)
          (.ok ⟨bs, "blinkit"⟩)).price_difference = |mz - mb| ∧
      (zs ≠ [] → bs ≠ [] →
        (search_and_compare query (.ok ⟨zs, "zepto"⟩)
            (.ok ⟨bs, "blinkit"⟩)).cheapest_provider =
          if mz ≤ mb then "zepto" else "blinkit") ∧
      (zs ≠ [] → bs = [] →
        (search_and_compare query (.ok ⟨zs, "zepto"⟩)
            (.ok ⟨bs, "blinkit"⟩)).cheapest_provider = "zepto") ∧
      (zs = [] → bs ≠ [] →
        (search_and_compare query (.ok ⟨zs, "zepto"⟩)
            (.ok ⟨bs, "blinkit"⟩)).cheapest_provider = "blinkit") ∧
      (zs = [] → bs = [] →
        (search_and_compare query (.ok ⟨zs, "zepto"⟩)
            (.ok ⟨bs, "blinkit"⟩)).cheapest_provider = "unknown" ∧
        (search_and_compare query (.ok ⟨zs, "zepto"⟩)
            (.ok ⟨bs, "blinkit"⟩)).price_difference = 0 ∧
        (search_and_compare query (.ok ⟨zs, "zepto"⟩)
            (.ok ⟨bs, "blinkit"⟩)).cheapest_product = none) := by
  refine ⟨minPriceD zs, minPriceD bs, minPriceD_spec zs, minPriceD_spec bs,
    rfl, ?_, ?_, ?_, ?_⟩
  · intro hzne hbne
    have h1 : 0 < minPriceD zs := minPriceD_pos zs hz hzne
    have h2 : 0 < minPriceD bs := minPriceD_pos bs hb hbne
    simp only [search_and_compare]
    rw [if_pos ⟨h1, h2⟩]
  · intro hzne hbe
    subst hbe
    have h1 : 0 < minPriceD zs := minPriceD_pos zs hz hzne
    simp only [search_and_compare]
    rw [if_neg (fun h => lt_irrefl 0 h.2), if_pos h1]
  · intro hze hbne
    subst hze
    have h2 : 0 < minPriceD bs := minPriceD_pos bs hb hbne
    simp only [search_and_compare]
    rw [show minPriceD ([] : List ScrapedProduct) = 0 from rfl]
    rw [if_neg (fun h => lt_irrefl 0 h.1), if_neg (lt_irrefl 0), if_pos h2]
  · intro hze hbe
    subst hze; subst hbe
    refine ⟨rfl, ?_, rfl⟩
    show |(0 : ℚ) - 0| = 0
    simp

/-- Two zepto products (₹50, ₹70) for the C4 witness. -/
def milk50 : ScrapedProduct :=
  { name := "Amul Taaza Toned Milk 1 L", price := 50, brand := "Amul",
    weight := "1 L", image_url := "" }

def milk70 : ScrapedProduct :=
  { name := "Nestle A+ Milk 1 L", price := 70, brand := "Nestle",
    weight := "1 L", image_url := "" }

/-- One blinkit product (₹60) for the C4 witness. -/
def milk60 : ScrapedProduct :=
  { name := "Amul Gold Milk 1 L", price := 60, brand := "Amul",
    weight := "1 L", image_url := "" }

/-- Witness for C4: the theorem instantiated at zepto prices [50, 70] and
blinkit prices [60]. -/
theorem C4_comparison_result_witness :
    ∃ mz mb : ℚ,
      (([milk50, milk70] = ([] : List ScrapedProduct) ∧ mz = 0) ∨
        (mz ∈ [milk50, milk70].map (·.price) ∧
          ∀ p ∈ [milk50, milk70], mz ≤ p.price)) ∧
      (([milk60] = ([] : List ScrapedProduct) ∧ mb = 0) ∨
        (mb ∈ [milk60].map (·.price) ∧ ∀ p ∈ [milk60], mb ≤ p.price)) ∧
      (search_and_compare "milk" (.ok ⟨[milk50, milk70], "zepto"⟩)
          (.ok ⟨[milk60], "blinkit"⟩)).price_difference = |mz - mb| ∧
      ([milk50, milk70] ≠ ([] : List ScrapedProduct) →
        [milk60] ≠ ([] : List ScrapedProduct) →
        (search_and_compare "milk" (.ok ⟨[milk50, milk70], "zepto"⟩)
            (.ok ⟨[milk60], "blinkit"⟩)).cheapest_provider =
          if mz ≤ mb then "zepto" else "blinkit") ∧
      ([milk50, milk70] ≠ ([] : List ScrapedProduct) →
        [milk60] = ([] : List ScrapedProduct) →
        (search_and_compare "milk" (.ok ⟨[milk50, milk70], "zepto"⟩)
            (.ok ⟨[milk60], "blinkit"⟩)).cheapest_provider = "zepto") ∧
      ([milk50, milk70] = ([] : List ScrapedProduct) →
        [milk60] ≠ ([] : List ScrapedProduct) →
        (search_and_compare "milk" (.ok ⟨[milk50, milk70], "zepto"⟩)
            (.ok ⟨[milk60], "blinkit"⟩)).cheapest_provider = "blinkit") ∧
      ([milk50, milk70] = ([] : List ScrapedProduct) →
        [milk60] = ([] : List ScrapedProduct) →
        (search_and_compare "milk" (.ok ⟨[milk50, milk70], "zepto"⟩)
            (.ok ⟨[milk60], "blinkit"⟩)).cheapest_provider = "unknown" ∧
        (search_and_compare "milk" (.ok ⟨[milk50, milk70], "zepto"⟩)
            (.ok ⟨[milk60], "blinkit"⟩)).price_difference = 0 ∧
        (search_and_compare "milk" (.ok ⟨[milk50, milk70], "zepto"⟩)
            (.ok ⟨[milk60], "blinkit"⟩)).cheapest_product = none) :=
  C4_comparison_result "milk" [milk50, milk70] [milk60] (by decide) (by decide)

/-- C5: the aggregator never raises — a provider task outcome captured as an
exception degrades to an empty product list for that provider, and the
resulting ComparisonResult (winner, cheapest product, price difference
included) is exactly the one computed from the surviving provider's full
product list alone. -/
theorem C5_aggregator_isolation (query e : String)
    (rz rb : PlatformSearchResults) :
    (search_and_compare query (.error e) (.ok rb) =
        search_and_compare query (.ok ⟨[], "zepto"⟩) (.ok rb) ∧
      (search_and_compare query (.error e) (.ok rb)).zepto_results = [] ∧
      (search_and_compare query (.error e) (.ok rb)).blinkit_results =
        rb.products) ∧
    (search_and_compare query (.ok rz) (.error e) =
        search_and_compare query (.ok rz) (.ok ⟨[], "blinkit"⟩) ∧
      (search_and_compare query (.ok rz) (.error e)).blinkit_results = [] ∧
      (search_and_compare query (.ok rz) (.error e)).zepto_results =
        rz.products) :=
  ⟨⟨rfl, rfl, rfl⟩, ⟨rfl, rfl, rfl⟩⟩

/-! ## C9: totality of `search_platform` at its boundary -/

/-- How many times the retry loop's `except`-and-continue branch fires
before the loop stops or is exhausted. -/
def errorSkipsAux (adapter : String → Except String PlatformSearchResults) :
    List String → Nat
  | [] => 0
  | t :: ts =>
    match adapter t with
    | .error _ => 1 + errorSkipsAux adapter ts
    | .ok r => if r.products.isEmpty then errorSkipsAux adapter ts else 0

/-- Error-branch hits of `_smart_search_with_retries` over the generated
alternatives. -/
def smart_search_error_skips
    (adapter : String → Except String PlatformSearchResults)
    (query : String) : Nat :=
  errorSkipsAux adapter (generate_search_alternatives query)

theorem errorSkipsAux_of_ok
    (adapter : String → Except String PlatformSearchResults)
    (f : String → PlatformSearchResults)
    (hAd : ∀ t, adapter t = .ok (f t)) :
    ∀ l, errorSkipsAux adapter l = 0 := by
  intro l
  induction l with
  | nil => rfl
  | cons t ts ih =>
    simp only [errorSkipsAux, hAd t]
    split
    · exact ih
    · rfl

/-- C9: `search_platform` is total at its public boundary — every agent
outcome (including a raised exception) yields a `PlatformSearchResults`
value, exceptions yielding an empty list tagged with the requested
platform — so an adapter built from it never raises, the retry
orchestrator's skip-on-error branch never fires, and the aggregator's
exception-capture branch is never taken (both providers keep their full
product lists). -/
theorem C9_search_platform_total (platform msg query : String)
    (oracle : String → AgentOutcome) (rz rb : PlatformSearchResults) :
    search_platform (.raised msg) platform =
      { products := [], platform := platform } ∧
    smart_search_error_skips
      (fun t => .ok (search_platform (oracle t) "blinkit")) query = 0 ∧
    (search_and_compare query (.ok rz) (.ok rb)).zepto_results =
      rz.products ∧
    (search_and_compare query (.ok rz) (.ok rb)).blinkit_results =
      rb.products :=
  ⟨rfl,
   errorSkipsAux_of_ok _ (fun t => search_platform (oracle t) "blinkit")
     (fun _ => rfl) _,
   rfl, rfl⟩

/-! ## Duplex audio session (`stream_audio` / `_send_audio` / `_receive_audio`)

Source: `backend/audio_streaming.py`, lines 69–365.  Modelling choices:

* An audio frame is an opaque byte buffer, modelled as `List Nat`.
* The inbound queue is the list of values `await audio_queue.get()` yields in
  order; the Python sentinel `None` is `Option.none`.
* The egress duty's input is the sequence of turns `session.receive()`
  yields, each turn a list of responses; the model connection is external,
  so this sequence is a parameter.
* The ingress and egress duties share no mutable state (each owns its queue;
  the connection is the external collaborator), so the `asyncio.TaskGroup`
  run is modelled by computing each duty's result independently.
* The consumer of the outbound queue runs concurrently; `consumed` is the
  number of frames it dequeued (from the front, FIFO) during a turn.
* Each duty's whole body is wrapped in `try/except Exception` that logs and
  falls through, so a duty never propagates an exception; `stream_audio`
  itself re-raises only connection-establishment errors. -/

abbrev AudioChunk := List Nat

structure ProductEntry where
  name : String
  price : ℚ
  brand : String
  weight : String
deriving DecidableEq

structure CheapestEntry where
  name : String
  price : ℚ
deriving DecidableEq

/-- The three shapes of the `result_data` dict sent as a tool response. -/
inductive ToolPayload where
  | found (query : String) (search_term_used : String)
      (products : List ProductEntry) (cheapest : CheapestEntry)
  | not_found (query : String) (message : String)
  | error (query : String) (message : String)
deriving DecidableEq

def statusOf : ToolPayload → String
  | .found _ _ _ _ => "found"
  | .not_found _ _ => "not_found"
  | .error _ _ => "error"

/-- `types.FunctionResponse(id=fc.id, name=fc.name, response=result_data)`. -/
structure ToolResult where
  id : String
  name : String
  payload : ToolPayload
deriving DecidableEq

/-- A function call delivered in a `response.tool_call`. -/
structure FunctionCall where
  id : String
  name : String
  args : List (String × String)
deriving DecidableEq

/-- One part of a `server_content.model_turn`. -/
structure ResponsePart where
  inline_data : Option AudioChunk
  text : Option String
deriving DecidableEq

/-- One response from the model connection's event stream. -/
structure Response where
  tool_call : Option (List FunctionCall)
  model_turn : Option (List ResponsePart)
deriving DecidableEq

abbrev Turn := List Response

def entryOfProduct (p : ScrapedProduct) : ProductEntry :=
  { name := p.name, price := p.price, brand := p.brand, weight := p.weight }

/-- Python `min(products, key=lambda p: p.price)` on the non-empty list
`x :: xs` (first minimum wins ties). -/
def pyMinProduct (x : ScrapedProduct) (xs : List ScrapedProduct) :
    ScrapedProduct :=
  xs.foldl (fun a b => if b.price < a.price then b else a) x

/-- The `search_product` branch of the tool-call dispatcher
(lines 284–338): extract `query` (default `""`), run the retry search inside
`try/except` — the search outcome is an `Except` so the caught-exception
path is the `.error` case — and build the `found` / `not_found` / `error`
response keyed by the originating call's id. -/
def handle_search_product
    (search : String → Except String (List ScrapedProduct × String))
    (fc : FunctionCall) : ToolResult :=
  let query := (fc.args.lookup "query").getD ""
  match search query with
  | .error e =>
    { id := fc.id, name := fc.name,
      payload := .error query ("Search failed: " ++ e) }
  | .ok ([], _) =>
    { id := fc.id, name := fc.name,
      payload := .not_found query ("No products found for '" ++ query ++
        "' on Blinkit after trying multiple search terms.") }
  | .ok (p :: ps, used_term) =>
    { id := fc.id, name := fc.name,
      payload := .found query used_term ((p :: ps).map entryOfProduct)
        { name := (pyMinProduct p ps).name,
          price := (pyMinProduct p ps).price } }

/-- Tool responses sent while processing one response: one per function call
named `search_product`, in arrival order; unknown names are logged only. -/
def toolResultsOfResponse
    (search : String → Except String (List ScrapedProduct × String))
    (r : Response) : List ToolResult :=
  match r.tool_call with
  | none => []
  | some fcs =>
    (fcs.filter (fun fc => fc.name = "search_product")).map
      (handle_search_product search)

/-- Audio chunks pushed onto the outbound queue while processing one
response (each part's `inline_data` bytes, in order). -/
def audioOfResponse (r : Response) : List AudioChunk :=
  match r.model_turn with
  | none => []
  | some parts => parts.filterMap (fun part => part.inline_data)

def toolResultsOfTurn
    (search : String → Except String (List ScrapedProduct × String))
    (t : Turn) : List ToolResult :=
  (t.map (toolResultsOfResponse search)).flatten

def audioOfTurn (t : Turn) : List AudioChunk :=
  (t.map audioOfResponse).flatten

/-- All function calls delivered in one turn. -/
def callsOfTurn (t : Turn) : List FunctionCall :=
  (t.map (fun r => r.tool_call.getD [])).flatten

/-- The end-of-turn `while not audio_queue.empty(): get_nowait()` loop. -/
def drainQueue {α : Type} : List α → List α
  | [] => []
  | _ :: rest => drainQueue rest

structure EgressTrace where
  tool_results : List ToolResult
  boundary_queues : List (List AudioChunk)
deriving DecidableEq

/-- The egress duty's `while True` loop over turns: process a turn's
responses (collecting tool responses and enqueuing audio), let the consumer
dequeue `consumed` frames from the front during the turn, then drain the
queue at the turn boundary.  `boundary_queues` records the queue contents
right after each per-turn drain. -/
def runReceiveTurns
    (search : String → Except String (List ScrapedProduct × String)) :
    List (Turn × Nat) → List AudioChunk → EgressTrace
  | [], _ => { tool_results := [], boundary_queues := [] }
  | (t, consumed) :: rest, q =>
    let qAfter := drainQueue ((q ++ audioOfTurn t).drop consumed)
    let tr := runReceiveTurns search rest qAfter
    { tool_results := toolResultsOfTurn search t ++ tr.tool_results,
      boundary_queues := qAfter :: tr.boundary_queues }

/-- How the ingress duty ended: sentinel `break`, input exhausted without a
sentinel (the queue would block forever), or an exception caught and logged
by the duty's own `except Exception`. -/
inductive IngressExit where
  | sentinel
  | starved
  | errorLogged (msg : String)
deriving DecidableEq

/-- `_send_audio`: pull values off the inbound queue, `break` on the `None`
sentinel, forward each real frame via `session.send_realtime_input`; any
exception is caught at the duty's top level (logged, duty returns).
Returns the frames forwarded, in order, and how the duty ended. -/
def runSendAudio (sendFn : AudioChunk → Except String Unit) :
    List (Option AudioChunk) → List AudioChunk × IngressExit
  | [] => ([], .starved)
  | none :: _ => ([], .sentinel)
  | some b :: rest =>
    match sendFn b with
    | .error e => ([], .errorLogged e)
    | .ok _ =>
      let res := runSendAudio sendFn rest
      (b :: res.1, res.2)

/-- The session lifecycle of §4.5: `CONNECTING → STREAMING → CLOSED/FAILED`. -/
inductive SessionState where
  | CONNECTING
  | STREAMING
  | CLOSED
  | FAILED
deriving DecidableEq

structure SessionResult where
  state : SessionState
  forwarded : List AudioChunk
  ingress_exit : IngressExit
  egress : EgressTrace
deriving DecidableEq

/-- `stream_audio`: connect (a connection-establishment failure raises out
of `stream_audio`, i.e. `FAILED`), then run both duties under the
`TaskGroup`.  Since each duty swallows its own exceptions, the group always
completes and the session ends `CLOSED`. -/
def stream_audio (connectOk : Bool)
    (sendFn : AudioChunk → Except String Unit)
    (search : String → Except String (List ScrapedProduct × String))
    (inbound : List (Option AudioChunk))
    (turns : List (Turn × Nat)) : SessionResult :=
  if connectOk then
    { state := .CLOSED,
      forwarded := (runSendAudio sendFn inbound).1,
      ingress_exit := (runSendAudio sendFn inbound).2,
      egress := runReceiveTurns search turns [] }
  else
    { state := .FAILED, forwarded := [], ingress_exit := .starved,
      egress := { tool_results := [], boundary_queues := [] } }

/-! ## Properties of the tool-call dispatcher and the duties -/

theorem handle_search_product_id
    (search : String → Except String (List ScrapedProduct × String))
    (fc : FunctionCall) :
    (handle_search_product search fc).id = fc.id := by
  simp only [handle_search_product]
  split <;> rfl

theorem pyMinProduct_mem (xs : List ScrapedProduct) :
    ∀ x, pyMinProduct x xs ∈ x :: xs := by
  induction xs with
  | nil => intro x; exact List.mem_singleton.2 rfl
  | cons b bs ih =>
    intro x
    have e : pyMinProduct x (b :: bs) =
        pyMinProduct (if b.price < x.price then b else x) bs := rfl
    rw [e]
    rcases List.mem_cons.1 (ih (if b.price < x.price then b else x)) with heq | hmem
    · rw [heq]
      by_cases hbx : b.price < x.price
      · rw [if_pos hbx]
        exact List.mem_cons_of_mem _ (List.mem_cons_self _ _)
      · rw [if_neg hbx]
        exact List.mem_cons_self _ _
    · exact List.mem_cons_of_mem _ (List.mem_cons_of_mem _ hmem)

theorem pyMinProduct_le (xs : List ScrapedProduct) :
    ∀ x, ∀ p ∈ x :: xs, (pyMinProduct x xs).price ≤ p.price := by
  induction xs with
  | nil =>
    intro x p hp
    have hpx : p = x := List.mem_singleton.1 hp
    rw [hpx]
    exact le_refl x.price
  | cons b bs ih =>
    intro x p hp
    have e : pyMinProduct x (b :: bs) =
        pyMinProduct (if b.price < x.price then b else x) bs := rfl
    rw [e]
    have hyx : (if b.price < x.price then b else x).price ≤ x.price := by
      by_cases hbx : b.price < x.price
      · rw [if_pos hbx]; exact le_of_lt hbx
      · rw [if_neg hbx]
    have hyb : (if b.price < x.price then b else x).price ≤ b.price := by
      by_cases hbx : b.price < x.price
      · rw [if_pos hbx]
      · rw [if_neg hbx]; exact le_of_not_lt hbx
    have hhead := ih (if b.price < x.price then b else x)
      (if b.price < x.price then b else x) (List.mem_cons_self _ _)
    rcases List.mem_cons.1 hp with rfl | hp'
    · exact le_trans hhead hyx
    · rcases List.mem_cons.1 hp' with rfl | hp''
      · exact le_trans hhead hyb
      · exact ih _ p (List.mem_cons_of_mem _ hp'')

theorem filter_id_singleton :
    ∀ (l : List FunctionCall) (fc : FunctionCall), fc ∈ l →
      (l.map (fun c => c.id)).Nodup →
      l.filter (fun c => c.id = fc.id) = [fc] := by
  intro l
  induction l with
  | nil => intro fc h _; cases h
  | cons a rest ih =>
    intro fc hmem hnodup
    rw [List.map_cons, List.nodup_cons] at hnodup
    rcases List.mem_cons.1 hmem with rfl | hmem'
    · rw [List.filter_cons_of_pos (by simp)]
      have hnil : rest.filter (fun c => c.id = fc.id) = [] := by
        refine List.filter_eq_nil_iff.2 ?_
        intro c hc
        simp only [decide_eq_true_eq]
        intro hceq
        apply hnodup.1
        rw [← hceq]
        exact List.mem_map_of_mem _ hc
      rw [hnil]
    · have hne : ¬(a.id = fc.id) := by
        intro heq
        apply hnodup.1
        rw [heq]
        exact List.mem_map_of_mem _ hmem'
      rw [List.filter_cons_of_neg (by simp [hne])]
      exact ih fc hmem' hnodup.2

theorem toolResultsOfResponse_eq
    (search : String → Except String (List ScrapedProduct × String))
    (r : Response) :
    toolResultsOfResponse search r =
      ((r.tool_call.getD []).filter
          (fun fc => fc.name = "search_product")).map
        (handle_search_product search) := by
  cases h : r.tool_call with
  | none => simp [toolResultsOfResponse, h]
  | some fcs => simp [toolResultsOfResponse, h]

theorem toolResultsOfTurn_eq
    (search : String → Except String (List ScrapedProduct × String))
    (t : Turn) :
    toolResultsOfTurn search t =
      ((callsOfTurn t).filter (fun fc => fc.name = "search_product")).map
        (handle_search_product search) := by
  induction t with
  | nil => rfl
  | cons r rs ih =>
    rw [show toolResultsOfTurn search (r :: rs) =
        toolResultsOfResponse search r ++ toolResultsOfTurn search rs from rfl]
    rw [show callsOfTurn (r :: rs) =
        r.tool_call.getD [] ++ callsOfTurn rs from rfl]
    rw [List.filter_append, List.map_append,
      toolResultsOfResponse_eq search r, ih]

/-- C1: for every function call named `search_product` in a turn handled by
the egress duty, exactly one ToolResult is sent back (assuming, per the
spec's data-model invariant, that call ids are unique), its id is the
originating call's id, and its payload status is `error` when the retry
search raises (the exception is converted locally, the dispatcher is total),
`not_found` when it returns an empty list, and `found` — carrying the
products and a price-minimal cheapest entry — when it returns a non-empty
list. -/
theorem C1_tool_call_dispatch
    (search : String → Except String (List ScrapedProduct × String))
    (turn : Turn) (fc : FunctionCall)
    (hmem : fc ∈ callsOfTurn turn)
    (hname : fc.name = "search_product")
    (hids : ((callsOfTurn turn).map (fun c => c.id)).Nodup) :
    (toolResultsOfTurn search turn).filter (fun tr => tr.id = fc.id) =
      [handle_search_product search fc] ∧
    (handle_search_product search fc).id = fc.id ∧
    (∀ e, search ((fc.args.lookup "query").getD "") = .error e →
      statusOf (handle_search_product search fc).payload = "error") ∧
    (∀ term, search ((fc.args.lookup "query").getD "") = .ok ([], term) →
      statusOf (handle_search_product search fc).payload = "not_found") ∧
    (∀ ps term, search ((fc.args.lookup "query").getD "") = .ok (ps, term) →
      ps ≠ [] →
      statusOf (handle_search_product search fc).payload = "found" ∧
      ∃ c : CheapestEntry,
        (handle_search_product search fc).payload =
          .found ((fc.args.lookup "query").getD "") term
            (ps.map entryOfProduct) c ∧
        c.price ∈ ps.map (fun p => p.price) ∧
        ∀ p ∈ ps, c.price ≤ p.price) := by
  refine ⟨?_, handle_search_product_id search fc, ?_, ?_, ?_⟩
  · rw [toolResultsOfTurn_eq, List.filter_map]
    have hcomp : ((fun tr => decide (tr.id = fc.id)) ∘
        handle_search_product search) = fun c => decide (c.id = fc.id) := by
      funext c
      simp [Function.comp, handle_search_product_id]
    rw [hcomp]
    have hsub : ((callsOfTurn turn).filter
        (fun fc => fc.name = "search_product")).Sublist (callsOfTurn turn) :=
      List.filter_sublist _
    have hnodup' : (((callsOfTurn turn).filter
        (fun fc => fc.name = "search_product")).map (fun c => c.id)).Nodup :=
      List.Nodup.sublist (hsub.map _) hids
    have hmem' : fc ∈ (callsOfTurn turn).filter
        (fun fc => fc.name = "search_product") :=
      List.mem_filter.2 ⟨hmem, by simp [hname]⟩
    rw [filter_id_singleton _ fc hmem' hnodup']
    rfl
  · intro e he
    simp only [handle_search_product, he, statusOf]
  · intro term ht
    simp only [handle_search_product, ht, statusOf]
  · intro ps term ht hne
    cases ps with
    | nil => exact absurd rfl hne
    | cons p ps' =>
      constructor
      · simp only [handle_search_product, ht, statusOf]
      · refine ⟨⟨(pyMinProduct p ps').name, (pyMinProduct p ps').price⟩,
            ?_, ?_, ?_⟩
        · simp only [handle_search_product, ht]
        · exact List.mem_map_of_mem _ (pyMinProduct_mem ps' p)
        · intro q hq
          exact pyMinProduct_le ps' p q hq

/-- A concrete retry-search outcome function for the session witnesses. -/
def demoSearch : String → Except String (List ScrapedProduct × String) :=
  fun q => if q = "maggi" then .ok ([maggiPack], "maggi") else .ok ([], q)

/-- A concrete `search_product` call. -/
def demoCall : FunctionCall :=
  { id := "call-1", name := "search_product", args := [("query", "maggi")] }

/-- A one-response turn carrying only the tool call. -/
def demoToolTurn : Turn :=
  [{ tool_call := some [demoCall], model_turn := none }]

/-- Witness for C1: the concrete turn produces exactly one ToolResult for
the call id `"call-1"`. -/
theorem C1_tool_call_dispatch_witness :
    (toolResultsOfTurn demoSearch demoToolTurn).filter
        (fun tr => tr.id = demoCall.id) =
      [handle_search_product demoSearch demoCall] :=
  (C1_tool_call_dispatch demoSearch demoToolTurn demoCall (by decide) rfl
    (by decide)).1

theorem drainQueue_eq_nil {α : Type} : ∀ l : List α, drainQueue l = []
  | [] => rfl
  | _ :: rest => drainQueue_eq_nil rest

/-- Every queue state recorded at a turn boundary is empty. -/
theorem runReceiveTurns_boundaries_nil
    (search : String → Except String (List ScrapedProduct × String)) :
    ∀ (ts : List (Turn × Nat)) (q : List AudioChunk),
      ∀ b ∈ (runReceiveTurns search ts q).boundary_queues, b = [] := by
  intro ts
  induction ts with
  | nil => intro q b hb; simp [runReceiveTurns] at hb
  | cons tc rest ih =>
    intro q b hb
    obtain ⟨t, consumed⟩ := tc
    simp only [runReceiveTurns] at hb
    rcases List.mem_cons.1 hb with rfl | hb'
    · exact drainQueue_eq_nil _
    · exact ih _ b hb'

/-- With a never-failing connection, the ingress duty forwards exactly the
frames before the sentinel, in order, and exits on the sentinel. -/
theorem runSendAudio_sentinel
    (sendFn : AudioChunk → Except String Unit)
    (hsend : ∀ b, sendFn b = .ok ()) :
    ∀ (frames : List AudioChunk) (rest : List (Option AudioChunk)),
      runSendAudio sendFn (frames.map some ++ none :: rest) =
        (frames, .sentinel) := by
  intro frames
  induction frames with
  | nil => intro rest; rfl
  | cons f fs ih =>
    intro rest
    simp only [List.map_cons, List.cons_append, runSendAudio, hsend f,
      List.append_eq, ih]

/-- C7: enqueuing the sentinel terminates the ingress duty alone — every
real frame before it is forwarded to the model connection in order and the
sentinel itself is not forwarded; the egress duty's behaviour is exactly
that of the egress loop running on its own event stream (unaffected by the
sentinel) and the session still closes normally; and at every turn boundary
the outbound queue is drained of all not-yet-consumed frames. -/
theorem C7_sentinel_and_interrupt_drain
    (sendFn : AudioChunk → Except String Unit)
    (search : String → Except String (List ScrapedProduct × String))
    (frames : List AudioChunk) (rest : List (Option AudioChunk))
    (turns : List (Turn × Nat))
    (hsend : ∀ b, sendFn b = .ok ()) :
    (stream_audio true sendFn search (frames.map some ++ none :: rest)
        turns).forwarded = frames ∧
    (stream_audio true sendFn search (frames.map some ++ none :: rest)
        turns).ingress_exit = .sentinel ∧
    (stream_audio true sendFn search (frames.map some ++ none :: rest)
        turns).egress = runReceiveTurns search turns [] ∧
    (stream_audio true sendFn search (frames.map some ++ none :: rest)
        turns).state = .CLOSED ∧
    ∀ b ∈ (stream_audio true sendFn search (frames.map some ++ none :: rest)
        turns).egress.boundary_queues, b = [] := by
  have h := runSendAudio_sentinel sendFn hsend frames rest
  refine ⟨?_, ?_, rfl, rfl, ?_⟩
  · show (runSendAudio sendFn (frames.map some ++ none :: rest)).1 = frames
    rw [h]
  · show (runSendAudio sendFn (frames.map some ++ none :: rest)).2 =
      IngressExit.sentinel
    rw [h]
  · intro b hb
    exact runReceiveTurns_boundaries_nil search turns [] b hb

/-- A one-response turn that only carries audio. -/
def demoAudioTurn : Turn :=
  [{ tool_call := none,
     model_turn := some [{ inline_data := some [7, 7, 7], text := none }] }]

/-- Witness for C7: two frames before the sentinel are forwarded, the duty
exits on the sentinel, and the session closes. -/
theorem C7_sentinel_and_interrupt_drain_witness :
    (stream_audio true (fun _ => .ok ()) demoSearch
        ([[1], [2]].map some ++ none :: [some [9]])
        [(demoAudioTurn, 0)]).forwarded = [[1], [2]] ∧
    (stream_audio true (fun _ => .ok ()) demoSearch
        ([[1], [2]].map some ++ none :: [some [9]])
        [(demoAudioTurn, 0)]).ingress_exit = .sentinel ∧
    (stream_audio true (fun _ => .ok ()) demoSearch
        ([[1], [2]].map some ++ none :: [some [9]])
        [(demoAudioTurn, 0)]).state = .CLOSED := by
  have h := C7_sentinel_and_interrupt_drain (fun _ => .ok ()) demoSearch
    [[1], [2]] [some [9]] [(demoAudioTurn, 0)] (fun _ => rfl)
  exact ⟨h.1, h.2.1, h.2.2.2.1⟩

/-- C8 (counterexample): a session whose ingress duty raises on its very
first send does not fail the session — the duty's own `except Exception`
swallows the error (lines 166–167) and the task group completes, so the
session ends `CLOSED`, not `FAILED` as the claim states. -/
theorem C8_counterexample :
    (stream_audio true (fun _ => .error "connection reset") demoSearch
        [some [1]] []).ingress_exit = .errorLogged "connection reset" ∧
    (stream_audio true (fun _ => .error "connection reset") demoSearch
        [some [1]] []).state = .CLOSED ∧
    SessionState.CLOSED ≠ SessionState.FAILED :=
  ⟨rfl, rfl, by decide⟩

/-- C8 (amended): an unhandled error inside either duty is caught by that
duty's top-level `except Exception` handler, which logs it and lets the duty
return; the session is not torn down by duty failures and ends `CLOSED`
whenever the connection was established; the session reaches `FAILED` only
when establishing the model connection fails. -/
theorem C8_duty_errors_swallowed
    (sendFn : AudioChunk → Except String Unit)
    (search : String → Except String (List ScrapedProduct × String))
    (inbound : List (Option AudioChunk))
    (turns : List (Turn × Nat)) :
    (stream_audio true sendFn search inbound turns).state = .CLOSED ∧
    (stream_audio false sendFn search inbound turns).state = .FAILED :=
  ⟨rfl, rfl⟩

/-- C10: the egress duty's drain loop sits after the `async for` over a
turn, so it runs after every completed turn — not only at interruptions —
and every frame still unconsumed on the outbound queue at any turn boundary
is discarded. -/
theorem C10_drain_after_every_turn
    (search : String → Except String (List ScrapedProduct × String))
    (turns : List (Turn × Nat)) (q0 : List AudioChunk) :
    ∀ b ∈ (runReceiveTurns search turns q0).boundary_queues, b = [] :=
  runReceiveTurns_boundaries_nil search turns q0

/-- Witness for C10: a normally completed audio turn whose consumer dequeued
nothing still ends with an empty outbound queue. -/
theorem C10_drain_after_every_turn_witness :
    (runReceiveTurns demoSearch [(demoAudioTurn, 0)] []).boundary_queues.headD
      [[9]] = [] :=
  C10_drain_after_every_turn demoSearch [(demoAudioTurn, 0)] []
    ((runReceiveTurns demoSearch [(demoAudioTurn, 0)] []).boundary_queues.headD
      [[9]])
    (by decide)
